import Mathlib

/-! Formal model of the shed environment manager: deterministic naming and
name validation (internal/config/types.go), container-state-to-status
mapping and the Docker-backed lifecycle operations with rollback
(internal/docker/containers.go, internal/docker/volumes.go), the tmux
session-listing parser (internal/docker/sessions.go), the SSH session
bridge's synchronization structure and terminal-resize relay
(internal/sshd, cmd/shed-server), and the bounded readiness poll
(internal/sshd). -/

/-- Decidable equality for Except results, so that concrete runs of the
fallible operations can be checked by evaluation. -/
instance {ε α : Type} [DecidableEq ε] [DecidableEq α] : DecidableEq (Except ε α) := fun a b =>
  match a, b with
  | .error e, .error f =>
    if h : e = f then .isTrue (h ▸ rfl) else .isFalse (fun hc => h (Except.error.inj hc))
  | .error _, .ok _ => .isFalse (fun hc => Except.noConfusion hc)
  | .ok _, .error _ => .isFalse (fun hc => Except.noConfusion hc)
  | .ok x, .ok y =>
    if h : x = y then .isTrue (h ▸ rfl) else .isFalse (fun hc => h (Except.ok.inj hc))

namespace Shed

/-! Status constants and Docker label keys, from internal/config/types.go. -/

def StatusRunning : String := "running"

def StatusStopped : String := "stopped"

def StatusStarting : String := "starting"

def StatusError : String := "error"

def LabelShed : String := "shed"

def LabelShedName : String := "shed.name"

def LabelShedCreated : String := "shed.created"

def LabelShedRepo : String := "shed.repo"

/-- ContainerName returns the Docker container name for a shed: the fixed
marker "shed-" (ContainerPrefix in the source) followed by the shed name. -/
def ContainerName (shedName : String) : String := "shed-" ++ shedName

/-- VolumeName returns the Docker volume name for a shed: "shed-" (VolumePrefix)
followed by the shed name followed by "-workspace" (VolumeSuffix). -/
def VolumeName (shedName : String) : String := "shed-" ++ shedName ++ "-workspace"

/-! Shed-name validation, from internal/config/types.go: names must match the
regular expression given by shedNameRegex and be at most 63 bytes long. -/

def MaxShedNameLength : Nat := 63

def isLowerAlpha (c : Char) : Bool := 'a' ≤ c && c ≤ 'z'

def isDigitChar (c : Char) : Bool := '0' ≤ c && c ≤ '9'

def isLowerAlnum (c : Char) : Bool := isLowerAlpha c || isDigitChar c

def isShedNameChar (c : Char) : Bool := isLowerAlnum c || c == '-'

/-- shedNameMatches decides membership in the anchored regular expression
from the source, which accepts either a single lowercase letter, or a
lowercase letter followed by letters, digits and hyphens and ending in a
letter or digit. -/
def shedNameMatches (name : String) : Bool :=
  match name.toList with
  | [] => false
  | [c] => isLowerAlpha c
  | c :: rest =>
    isLowerAlpha c && rest.dropLast.all isShedNameChar &&
      (match rest.getLast? with
       | some d => isLowerAlnum d
       | none => false)

/-- Distinguishable outcomes of ValidateShedName, mirroring the three
distinct error returns of the source. -/
inductive NameError
  | empty
  | tooLong
  | badFormat
deriving DecidableEq, Repr

/-- ValidateShedName validates a shed name: nonempty, at most 63 bytes
(Go len measures bytes), and matching the naming grammar. -/
def ValidateShedName (name : String) : Option NameError :=
  if name == "" then some .empty
  else if name.utf8ByteSize > MaxShedNameLength then some .tooLong
  else if !shedNameMatches name then some .badFormat
  else none

/-! Container state as reported by the Docker runtime.  The inspect endpoint
reports boolean flags; the list endpoint reports a state string derived from
those flags.  The flags structure and the string derivation model the
external runtime collaborator (the Docker Engine's container state), which
the repository consumes but does not implement. -/

structure ContainerState where
  running : Bool
  paused : Bool
  restarting : Bool
  dead : Bool
  removalInProgress : Bool
  startedAtZero : Bool
deriving DecidableEq, Repr

/-- Models the Docker Engine's derivation of the reported state string from
the state flags (the runtime's StateString): a running container is reported
as paused, restarting or running according to its flags; a non-running one
as removing, dead, created (never started) or exited.  The possible values
are exactly created, running, paused, restarting, removing, exited, dead. -/
def mobyStateString (s : ContainerState) : String :=
  if s.running then
    if s.paused then "paused"
    else if s.restarting then "restarting"
    else "running"
  else if s.removalInProgress then "removing"
  else if s.dead then "dead"
  else if s.startedAtZero then "created"
  else "exited"

/-- containerStateToStatus converts a Docker container state string to a shed
status (internal/docker/containers.go): the switch maps running to running;
created, exited and dead to stopped; restarting and paused to starting; and
everything else to error. -/
def containerStateToStatus (state : String) : String :=
  if state == "running" then StatusRunning
  else if state == "created" || state == "exited" || state == "dead" then StatusStopped
  else if state == "restarting" || state == "paused" then StatusStarting
  else StatusError

/-- inspectStateToStatus converts the state reported by container inspect to
a shed status (internal/docker/containers.go): a missing state is error, a
Running state is running, a Paused or Restarting state is starting, and
everything else is stopped. -/
def inspectStateToStatus (state : Option ContainerState) : String :=
  match state with
  | none => StatusError
  | some s =>
    if s.running then StatusRunning
    else if s.paused || s.restarting then StatusStarting
    else StatusStopped

/-- The status table exactly as the specification words it: running maps to
running; created, exited and dead map to stopped; restarting and paused map
to starting; any unrecognized state maps to error.  Stated over the reported
state string, for comparison with the two read paths of the code. -/
def specStatusMap (state : String) : String :=
  if state == "running" then StatusRunning
  else if state == "created" || state == "exited" || state == "dead" then StatusStopped
  else if state == "restarting" || state == "paused" then StatusStarting
  else StatusError

/-! The Docker daemon's object store, as the single source of truth the
lifecycle controller reads and writes through the runtime adapter:
containers (with name, id, image, labels and state) and named volumes. -/

structure ContainerRecord where
  name : String
  id : String
  image : String
  labels : List (String × String)
  state : ContainerState
deriving DecidableEq, Repr

structure DockerState where
  containers : List ContainerRecord
  volumes : List String
deriving DecidableEq, Repr

/-- Reading a key from a Go label map: the mapped value, or the empty string
when the key is absent. -/
def labelGet (labels : List (String × String)) (key : String) : String :=
  match labels.find? (fun p => p.1 == key) with
  | some p => p.2
  | none => ""

/-- Docker resolves a container reference as either its name or its id. -/
def matchesRef (c : ContainerRecord) (ref : String) : Bool :=
  c.name == ref || c.id == ref

/-- Container lookup by name, as ContainerInspect does when passed a name. -/
def lookupContainer (s : DockerState) (name : String) : Option ContainerRecord :=
  s.containers.find? (fun c => c.name == name)

/-- Forced container removal (ContainerRemove with Force): drops every record
matching the reference; the boolean reports whether one existed (docker
answers not-found otherwise). -/
def containerRemove (s : DockerState) (ref : String) : DockerState × Bool :=
  ({ s with containers := s.containers.filter (fun c => !(matchesRef c ref)) },
   s.containers.any (fun c => matchesRef c ref))

/-- VolumeCreate: creating a volume whose name already exists returns the
existing volume without error. -/
def volumeCreate (s : DockerState) (name : String) : DockerState :=
  if s.volumes.contains name then s
  else { s with volumes := s.volumes ++ [name] }

/-- Forced volume removal; the boolean reports whether the volume existed. -/
def volumeRemove (s : DockerState) (name : String) : DockerState × Bool :=
  ({ s with volumes := s.volumes.filter (fun v => v != name) },
   s.volumes.contains name)

/-- State flags of a freshly created, never started container. -/
def createdContainerState : ContainerState :=
  { running := false, paused := false, restarting := false, dead := false,
    removalInProgress := false, startedAtZero := true }

/-- State flags of a running container. -/
def runningContainerState : ContainerState :=
  { running := true, paused := false, restarting := false, dead := false,
    removalInProgress := false, startedAtZero := false }

/-- State flags of an exited container. -/
def exitedContainerState : ContainerState :=
  { running := false, paused := false, restarting := false, dead := false,
    removalInProgress := false, startedAtZero := false }

/-- ContainerStart on the daemon state: the referenced container becomes
running. -/
def containerStart (s : DockerState) (ref : String) : DockerState :=
  { s with containers :=
      s.containers.map (fun c =>
        if matchesRef c ref then { c with state := runningContainerState } else c) }

/-- ContainerStop on the daemon state: the referenced container exits. -/
def containerStop (s : DockerState) (ref : String) : DockerState :=
  { s with containers :=
      s.containers.map (fun c =>
        if matchesRef c ref then { c with state := exitedContainerState } else c) }

/-- The Shed projection returned to callers (internal/config/types.go),
with CreatedAt carried as the raw creation-label string. -/
structure ShedRec where
  name : String
  status : String
  created : String
  repo : String
  containerId : String
deriving DecidableEq, Repr

/-- The taxonomized errors the lifecycle operations return, one constructor
per distinguishable error return of the source. -/
inductive ShedError
  | invalidName (e : NameError)
  | invalidRepoURL
  | notFound (name : String)
  | alreadyRunning (name : String)
  | alreadyStopped (name : String)
  | createVolumeFailed
  | createContainerFailed
  | startContainerFailed
  | runtime (msg : String)
deriving DecidableEq, Repr

/-- The runtime-adapter calls a lifecycle operation issues, recorded in
order so that absence of side effects is provable. -/
inductive RuntimeCall
  | volumeCreate (name : String)
  | volumeRemove (name : String)
  | containerCreate (name : String)
  | containerStart (ref : String)
  | containerStop (ref : String)
  | containerRemove (ref : String)
  | execClone (ref : String)
deriving DecidableEq, Repr

/-- GetShed (internal/docker/containers.go): inspect the container derived
from the name; not-found when it does not exist or does not carry the shed
ownership label "shed" = "true"; otherwise project labels and inspect state
into a ShedRec. -/
def GetShed (s : DockerState) (name : String) : Except ShedError ShedRec :=
  match lookupContainer s (ContainerName name) with
  | none => .error (.notFound name)
  | some c =>
    if labelGet c.labels LabelShed != "true" then .error (.notFound name)
    else .ok
      { name := labelGet c.labels LabelShedName,
        status := inspectStateToStatus (some c.state),
        created := labelGet c.labels LabelShedCreated,
        repo := labelGet c.labels LabelShedRepo,
        containerId := c.id }

/-- containerToShed (internal/docker/containers.go): projection used by the
list endpoint, whose status comes from the reported state string. -/
def containerToShed (c : ContainerRecord) : ShedRec :=
  { name := labelGet c.labels LabelShedName,
    status := containerStateToStatus (mobyStateString c.state),
    created := labelGet c.labels LabelShedCreated,
    repo := labelGet c.labels LabelShedRepo,
    containerId := c.id }

/-- ListSheds (internal/docker/containers.go): list all containers carrying
the shed ownership label and project each. -/
def ListSheds (s : DockerState) : List ShedRec :=
  (s.containers.filter (fun c => labelGet c.labels LabelShed == "true")).map
    containerToShed

/-- DeleteShed (internal/docker/containers.go): force-remove the container
derived from the name, tolerating not-found; then, unless keepVolume is set,
remove the volume, logging rather than propagating its failure. -/
def DeleteShed (s : DockerState) (name : String) (keepVolume : Bool) :
    Except ShedError Unit × DockerState × List RuntimeCall :=
  let r1 := containerRemove s (ContainerName name)
  let tr1 := [RuntimeCall.containerRemove (ContainerName name)]
  if keepVolume then (.ok (), r1.1, tr1)
  else
    let r2 := volumeRemove r1.1 (VolumeName name)
    (.ok (), r2.1, tr1 ++ [RuntimeCall.volumeRemove (VolumeName name)])

/-- StartShed (internal/docker/containers.go): re-check the current status
first and answer already-running as a conflict before any runtime start
call; otherwise start the container (startFails injects a runtime failure of
that call) and re-read the shed. -/
def StartShed (startFails : Bool) (s : DockerState) (name : String) :
    Except ShedError ShedRec × DockerState × List RuntimeCall :=
  match GetShed s name with
  | .error e => (.error e, s, [])
  | .ok shed =>
    if shed.status == StatusRunning then (.error (.alreadyRunning name), s, [])
    else if startFails then
      (.error (.runtime "failed to start container"), s,
       [RuntimeCall.containerStart (ContainerName name)])
    else
      let s1 := containerStart s (ContainerName name)
      let tr := [RuntimeCall.containerStart (ContainerName name)]
      match GetShed s1 name with
      | .error e => (.error e, s1, tr)
      | .ok shed2 => (.ok shed2, s1, tr)

/-- StopShed (internal/docker/containers.go): re-check the current status
first and answer already-stopped as a conflict before any runtime stop call;
otherwise stop the container with a bounded grace period and re-read. -/
def StopShed (stopFails : Bool) (s : DockerState) (name : String) :
    Except ShedError ShedRec × DockerState × List RuntimeCall :=
  match GetShed s name with
  | .error e => (.error e, s, [])
  | .ok shed =>
    if shed.status == StatusStopped then (.error (.alreadyStopped name), s, [])
    else if stopFails then
      (.error (.runtime "failed to stop container"), s,
       [RuntimeCall.containerStop (ContainerName name)])
    else
      let s1 := containerStop s (ContainerName name)
      let tr := [RuntimeCall.containerStop (ContainerName name)]
      match GetShed s1 name with
      | .error e => (.error e, s1, tr)
      | .ok shed2 => (.ok shed2, s1, tr)

structure ServerConfig where
  defaultImage : String
deriving DecidableEq, Repr

structure CreateShedRequest where
  name : String
  repo : String
  image : String
deriving DecidableEq, Repr

/-- Failure injection for the runtime calls CreateShed issues.
repoURLInvalid stands for the outcome of ValidateGitRepoURL on a nonempty
repository URL (an external pure syntax check; the empty URL is always
valid); the other flags make the corresponding runtime call fail. -/
structure CreateFaults where
  repoURLInvalid : Bool
  volumeCreateFails : Bool
  containerCreateFails : Bool
  containerStartFails : Bool
  cloneFails : Bool
deriving DecidableEq, Repr

/-- CreateShed (internal/docker/containers.go): validate the name, validate
the repository URL, create the workspace volume, create the container
(labelled with ownership, name, creation time and optional repo; docker also
fails the create when the container name is already taken), start it, and
optionally clone the repository (a clone failure is logged, never
propagated, and nothing is rolled back for it).  A container-create failure
rolls back the volume; a start failure force-removes the container by id and
rolls back the volume.  now is the creation timestamp, newId the container
id the daemon assigns. -/
def CreateShed (cfg : ServerConfig) (f : CreateFaults) (now newId : String)
    (s : DockerState) (req : CreateShedRequest) :
    Except ShedError ShedRec × DockerState × List RuntimeCall :=
  match ValidateShedName req.name with
  | some e => (.error (.invalidName e), s, [])
  | none =>
  if req.repo != "" && f.repoURLInvalid then (.error .invalidRepoURL, s, [])
  else
    let image := if req.image == "" then cfg.defaultImage else req.image
    let cName := ContainerName req.name
    let vName := VolumeName req.name
    if f.volumeCreateFails then
      (.error .createVolumeFailed, s, [RuntimeCall.volumeCreate vName])
    else
      let s1 := volumeCreate s vName
      let tr1 := [RuntimeCall.volumeCreate vName]
      let labels :=
        [(LabelShed, "true"), (LabelShedName, req.name), (LabelShedCreated, now)] ++
          (if req.repo != "" then [(LabelShedRepo, req.repo)] else [])
      if f.containerCreateFails || (lookupContainer s1 cName).isSome then
        let r2 := volumeRemove s1 vName
        (.error .createContainerFailed, r2.1,
         tr1 ++ [RuntimeCall.containerCreate cName, RuntimeCall.volumeRemove vName])
      else
        let ctr : ContainerRecord :=
          { name := cName, id := newId, image := image, labels := labels,
            state := createdContainerState }
        let s2 : DockerState := { s1 with containers := s1.containers ++ [ctr] }
        let tr2 := tr1 ++ [RuntimeCall.containerCreate cName]
        if f.containerStartFails then
          let r3 := containerRemove s2 newId
          let r4 := volumeRemove r3.1 vName
          (.error .startContainerFailed, r4.1,
           tr2 ++ [RuntimeCall.containerStart newId, RuntimeCall.containerRemove newId,
                   RuntimeCall.volumeRemove vName])
        else
          let s3 := containerStart s2 newId
          let tr3 := tr2 ++ [RuntimeCall.containerStart newId] ++
            (if req.repo != "" then [RuntimeCall.execClone newId] else [])
          (.ok { name := req.name, status := StatusRunning, created := now,
                 repo := req.repo, containerId := newId }, s3, tr3)

/-! The tmux session-listing parser, from internal/docker/sessions.go.
Strings are processed as character lists so that every step (Go's
strings.Split, strings.TrimSpace, strconv.ParseInt) is an executable
structural recursion. -/

/-- strings.Split with a one-character separator: the list of substrings
between separators; the empty input yields one empty field. -/
def splitOnChar (sep : Char) : List Char → List (List Char)
  | [] => [[]]
  | c :: rest =>
    let r := splitOnChar sep rest
    if c == sep then [] :: r
    else
      match r with
      | h :: t => (c :: h) :: t
      | [] => [[c]]

/-- unicode.IsSpace, as Go's strings.TrimSpace uses it: the Unicode
white-space code points. -/
def goIsSpace (c : Char) : Bool :=
  c == ' ' || c == '\t' || c == '\n' || c.val == 0x0B || c.val == 0x0C || c == '\r' ||
    c.val == 0x85 || c.val == 0xA0 || c.val == 0x1680 ||
    (0x2000 ≤ c.val && c.val ≤ 0x200A) ||
    c.val == 0x2028 || c.val == 0x2029 || c.val == 0x202F || c.val == 0x205F ||
    c.val == 0x3000

/-- strings.TrimSpace: drop white space from both ends. -/
def goTrimSpace (l : List Char) : List Char :=
  ((l.dropWhile goIsSpace).reverse.dropWhile goIsSpace).reverse

/-- The numeric value of a digit string. -/
def digitsVal (l : List Char) : Nat :=
  l.foldl (fun acc c => acc * 10 + (c.toNat - '0'.toNat)) 0

/-- strconv.ParseInt with base 10 and 64-bit size (strconv.Atoi behaves the
same on a 64-bit platform): an optional sign followed by decimal digits,
failing on an empty number, a stray character, or 64-bit overflow. -/
def parseGoInt64 (l : List Char) : Option Int :=
  let signed :=
    match l with
    | '+' :: rest => (false, rest)
    | '-' :: rest => (true, rest)
    | _ => (false, l)
  if signed.2.isEmpty || !signed.2.all isDigitChar then none
  else
    let n := digitsVal signed.2
    if signed.1 then
      if n ≤ 2 ^ 63 then some (-(n : Int)) else none
    else
      if n ≤ 2 ^ 63 - 1 then some (n : Int) else none

/-- A tmux session entry (config.Session in the source).  created carries
the parsed Unix timestamp, none standing for Go's zero time.Time that an
unparsable timestamp leaves behind. -/
structure Session where
  name : String
  shedName : String
  created : Option Int
  attached : Bool
  windowCount : Int
deriving DecidableEq, Repr

/-- One iteration of the parser's loop (internal/docker/sessions.go,
parseTmuxSessions): trim the line, skip it when empty or when it has fewer
than four colon-separated fields, and otherwise build a session whose
timestamp and window count fall back to their zero values when unparsable
and whose Attached flag is the comparison of the third field with "1". -/
def parseTmuxLine (shedName : String) (rawLine : List Char) : Option Session :=
  let line := goTrimSpace rawLine
  if line.isEmpty then none
  else
    let parts := splitOnChar ':' line
    if parts.length < 4 then none
    else
      some
        { name := String.mk (parts.getD 0 []),
          shedName := shedName,
          created := parseGoInt64 (parts.getD 1 []),
          attached := parts.getD 2 [] == ['1'],
          windowCount := (parseGoInt64 (parts.getD 3 [])).getD 0 }

/-- parseTmuxSessions: trim the whole output, split it into lines, and keep
the sessions the per-line step yields (the source's error result is always
nil). -/
def parseTmuxSessions (output : String) (shedName : String) : List Session :=
  (splitOnChar '\n' (goTrimSpace output.toList)).filterMap (parseTmuxLine shedName)

/-- A well-formed line of the listing format
name:createdUnixTimestamp:attachedFlag:windowCount, following the
specification's words (for comparison with the parser): exactly four
colon-separated fields whose timestamp and window-count fields are decimal
numbers. -/
def specWellFormedTmuxLine (line : List Char) : Bool :=
  match splitOnChar ':' line with
  | [_, p1, _, p3] =>
    !p1.isEmpty && p1.all isDigitChar && !p3.isEmpty && p3.all isDigitChar
  | _ => false

/-- The lines the parser actually keeps: nonempty after trimming, with at
least four colon-separated fields. -/
def lineAccepted (rawLine : List Char) : Bool :=
  !(goTrimSpace rawLine).isEmpty &&
    decide (4 ≤ (splitOnChar ':' (goTrimSpace rawLine)).length)

/-- The session an accepted line yields. -/
def tmuxSessionOfLine (shedName : String) (rawLine : List Char) : Session :=
  let parts := splitOnChar ':' (goTrimSpace rawLine)
  { name := String.mk (parts.getD 0 []),
    shedName := shedName,
    created := parseGoInt64 (parts.getD 1 []),
    attached := parts.getD 2 [] == ['1'],
    windowCount := (parseGoInt64 (parts.getD 3 [])).getD 0 }

/-- The third colon-separated field of a trimmed line. -/
def tmuxThirdField (rawLine : List Char) : List Char :=
  (splitOnChar ':' (goTrimSpace rawLine)).getD 2 []

/-! The session bridge's synchronization structure
(cmd/shed-server, dockerSSHAdapter.ExecInContainer).  After exec-create and
attach, the bridge spawns a detached stdin-copy goroutine and an output-copy
goroutine that closes the done channel when the remote output stream ends;
the main path blocks on done and only then inspects the exec for its exit
code and returns.  The interleavings of these tasks form a small transition
system. -/

structure BridgeState where
  stdinDone : Bool
  outputDone : Bool
  exitFetched : Bool
  returned : Bool
deriving DecidableEq, Repr

/-- The initial bridge state: both copies in flight, nothing fetched. -/
def bridgeInit : BridgeState :=
  { stdinDone := false, outputDone := false, exitFetched := false, returned := false }

/-- The bridge's concurrent steps: either copy goroutine may finish at any
time; the main path's exec-inspect step is enabled exactly when the output
copy has finished (the receive from done), and its return step once the exit
code is fetched. -/
inductive BridgeStep : BridgeState → BridgeState → Prop
  | stdinFinishes (s : BridgeState) : BridgeStep s { s with stdinDone := true }
  | outputFinishes (s : BridgeState) : BridgeStep s { s with outputDone := true }
  | fetchExit (s : BridgeState) (ho : s.outputDone = true) :
      BridgeStep s { s with exitFetched := true }
  | returnResult (s : BridgeState) (hf : s.exitFetched = true) :
      BridgeStep s { s with returned := true }

/-- The states a bridge invocation can reach from its start. -/
def BridgeReachable (s : BridgeState) : Prop :=
  Relation.ReflTransGen BridgeStep bridgeInit s

/-! The terminal-resize relay.  The producer
(internal/sshd, handleWindowResize) forwards each caller-side window-change
event to a 10-slot buffered channel with a non-blocking send that drops the
event when the channel is full; the consumer goroutine
(dockerSSHAdapter.ExecInContainer) takes buffered events one at a time and
applies each to the remote exec's PTY. -/

structure TerminalSize where
  width : Nat
  height : Nat
deriving DecidableEq, Repr

/-- The resize channel's buffer capacity (make(chan TerminalSize, 10)). -/
def resizeChanCap : Nat := 10

/-- The non-blocking send: enqueue when the buffer has room, drop otherwise. -/
def sendNonBlocking (queue : List TerminalSize) (e : TerminalSize) :
    List TerminalSize :=
  if queue.length < resizeChanCap then queue ++ [e] else queue

/-- A relay configuration: the window-change events still to arrive, the
channel buffer, and the sizes applied to the remote PTY so far, in order. -/
structure ResizeState where
  pending : List TerminalSize
  queue : List TerminalSize
  applied : List TerminalSize
deriving DecidableEq, Repr

/-- The relay's steps: the producer forwards the next event with a
non-blocking send (enabled whenever an event is pending, whatever the buffer
or the consumer are doing), and the consumer applies the oldest buffered
event. -/
inductive ResizeStep : ResizeState → ResizeState → Prop
  | forward (e : TerminalSize) (rest queue applied : List TerminalSize) :
      ResizeStep ⟨e :: rest, queue, applied⟩
        ⟨rest, sendNonBlocking queue e, applied⟩
  | apply (pending : List TerminalSize) (e : TerminalSize)
      (rest applied : List TerminalSize) :
      ResizeStep ⟨pending, e :: rest, applied⟩ ⟨pending, rest, applied ++ [e]⟩

/-- Pushing a whole burst of events through the non-blocking send with no
consumer progress. -/
def pushBurst (queue : List TerminalSize) (events : List TerminalSize) :
    List TerminalSize :=
  events.foldl sendNonBlocking queue

/-! The auto-start readiness poll (internal/sshd, waitForReady): a ticker
fires every 250 milliseconds; on each iteration the loop first answers
context cancellation, then deadline expiry (10 seconds after entry), and
otherwise polls GetShed, retrying on a lookup error, succeeding on running,
and failing terminally on error status.  Ticks are numbered from 1, so on
tick k the elapsed time is k * 250 ms. -/

def containerReadyTimeoutMs : Nat := 10000

def containerReadyPollIntervalMs : Nat := 250

/-- What one loop iteration observes: context cancellation, or a tick whose
shed lookup either fails or reports a status. -/
inductive LookupOutcome
  | failed
  | ok (status : String)
deriving DecidableEq, Repr

inductive TickEvent
  | ctxDone
  | tick (lookup : LookupOutcome)
deriving DecidableEq, Repr

inductive WaitResult
  | ready
  | errorState
  | timeout
  | cancelled
deriving DecidableEq, Repr

/-- The poll loop from tick onward, driven by the per-iteration
observations. -/
def waitForReadyAux (events : Nat → TickEvent) (tick : Nat) : WaitResult :=
  match events tick with
  | .ctxDone => .cancelled
  | .tick lk =>
    if h : containerReadyPollIntervalMs * tick > containerReadyTimeoutMs then
      .timeout
    else
      match lk with
      | .failed => waitForReadyAux events (tick + 1)
      | .ok st =>
        if st == StatusRunning then .ready
        else if st == StatusError then .errorState
        else waitForReadyAux events (tick + 1)
  termination_by containerReadyTimeoutMs / containerReadyPollIntervalMs + 1 - tick
  decreasing_by
    all_goals
      simp only [containerReadyTimeoutMs, containerReadyPollIntervalMs] at h ⊢
      omega

/-- waitForReady enters the loop at the first tick. -/
def waitForReady (events : Nat → TickEvent) : WaitResult :=
  waitForReadyAux events 1

/-- An iteration that neither ends the poll nor cancels it: a failed lookup,
or a reported status other than running and error. -/
def TickNonTerminal (e : TickEvent) : Prop :=
  e = .tick .failed ∨
    ∃ st, e = .tick (.ok st) ∧ st ≠ StatusRunning ∧ st ≠ StatusError

/-! Concrete sample data used to exercise the operations. -/

/-- A daemon state holding one labelled running shed named w. -/
def sampleRunning : DockerState :=
  { containers :=
      [{ name := "shed-w", id := "c1", image := "img",
         labels := [("shed", "true"), ("shed.name", "w"), ("shed.created", "t")],
         state := runningContainerState }],
    volumes := ["shed-w-workspace"] }

/-- A daemon state holding one labelled exited shed named w. -/
def sampleStopped : DockerState :=
  { containers :=
      [{ name := "shed-w", id := "c1", image := "img",
         labels := [("shed", "true"), ("shed.name", "w"), ("shed.created", "t")],
         state := exitedContainerState }],
    volumes := ["shed-w-workspace"] }

/-- A daemon state holding a container named shed-w that carries no shed
ownership label. -/
def sampleUnlabeled : DockerState :=
  { containers :=
      [{ name := "shed-w", id := "c1", image := "img",
         labels := [], state := runningContainerState }],
    volumes := [] }

/-- A non-running container the runtime is in the middle of removing. -/
def removingContainerState : ContainerState :=
  { running := false, paused := false, restarting := false, dead := false,
    removalInProgress := true, startedAtZero := false }

/-- A daemon state holding one labelled shed whose container is being
removed. -/
def sampleRemoving : DockerState :=
  { containers :=
      [{ name := "shed-w", id := "c9", image := "img",
         labels := [("shed", "true"), ("shed.name", "w"), ("shed.created", "t")],
         state := removingContainerState }],
    volumes := ["shed-w-workspace"] }

def sampleConfig : ServerConfig := { defaultImage := "img" }

def sampleNoFaults : CreateFaults :=
  { repoURLInvalid := false, volumeCreateFails := false,
    containerCreateFails := false, containerStartFails := false,
    cloneFails := false }

def sampleEmpty : DockerState := { containers := [], volumes := [] }

/-! Helper lemmas. -/

/-- A string never survives a filter keeping only strings different from it. -/
theorem not_mem_filter_bne_self (v : String) (l : List String) :
    v ∉ l.filter (fun x => x != v) := by
  simp [List.mem_filter]

/-- Creating a volume does not change the containers, so container lookup is
unaffected. -/
theorem lookupContainer_volumeCreate (s : DockerState) (v n : String) :
    lookupContainer (volumeCreate s v) n = lookupContainer s n := by
  unfold volumeCreate
  split <;> rfl

/-- After filtering out every record matching a reference, lookup by that
same string as a name fails, provided no other record carried it as a name
to begin with or the filter removed them all. -/
theorem find_name_filter_ref_none (l : List ContainerRecord) (ref : String) :
    (l.filter (fun c => !(matchesRef c ref))).find? (fun c => c.name == ref) = none := by
  rw [List.find?_eq_none]
  intro x hx
  rw [List.mem_filter] at hx
  have hq := hx.2
  simp [matchesRef] at hq
  simp [hq.1]

/-! C5: invalid names are rejected before any side effect. -/

/-- C5: create with a name that fails the naming grammar is rejected
synchronously with the InvalidName error before any side effect: the daemon
state is returned unchanged and no runtime call (in particular no volume or
container creation) is issued. -/
theorem createShed_invalidName (cfg : ServerConfig) (f : CreateFaults)
    (now newId : String) (s : DockerState) (req : CreateShedRequest)
    (e : NameError) (hv : ValidateShedName req.name = some e) :
    CreateShed cfg f now newId s req = (.error (.invalidName e), s, []) := by
  simp [CreateShed, hv]

/-- C5 witness: create("bad name") (contains a space) is rejected as an
invalid name with no state change and no runtime calls. -/
theorem createShed_invalidName_witness :
    CreateShed sampleConfig sampleNoFaults "t" "id0" sampleEmpty
      { name := "bad name", repo := "", image := "" } =
      (.error (.invalidName .badFormat), sampleEmpty, []) :=
  createShed_invalidName sampleConfig sampleNoFaults "t" "id0" sampleEmpty
    { name := "bad name", repo := "", image := "" } .badFormat (by decide)

/-! C9: the naming functions are injective. -/

/-- String append acts on the underlying character lists. -/
theorem string_append_data (a b : String) : (a ++ b).data = a.data ++ b.data := rfl

/-- C9: the naming functions are injective: distinct valid environment names
yield distinct container names and distinct volume names. -/
theorem naming_injective (n1 n2 : String)
    (h1 : ValidateShedName n1 = none) (h2 : ValidateShedName n2 = none)
    (hne : n1 ≠ n2) :
    ContainerName n1 ≠ ContainerName n2 ∧ VolumeName n1 ≠ VolumeName n2 := by
  constructor
  · intro h
    apply hne
    have hd := congrArg String.data h
    simp only [ContainerName, string_append_data] at hd
    have := List.append_cancel_left hd
    cases n1
    cases n2
    exact congrArg String.mk this
  · intro h
    apply hne
    have hd := congrArg String.data h
    simp only [VolumeName, string_append_data] at hd
    have hmid := List.append_cancel_right hd
    have := List.append_cancel_left hmid
    cases n1
    cases n2
    exact congrArg String.mk this

/-- C9 witness: the distinct valid names a and b map to distinct container
and volume names. -/
theorem naming_injective_witness :
    ContainerName "a" ≠ ContainerName "b" ∧ VolumeName "a" ≠ VolumeName "b" :=
  naming_injective "a" "b" (by decide) (by decide) (by decide)

/-! C4: start and stop conflict detection. -/

/-- C4: start on an environment whose derived status is running answers the
already-running conflict, leaves the daemon state untouched and issues no
runtime call; stop on one whose derived status is stopped answers the
already-stopped conflict the same way. -/
theorem startStop_conflict (s : DockerState) (name : String) (shed : ShedRec)
    (fStart fStop : Bool) (h : GetShed s name = .ok shed) :
    (shed.status = StatusRunning →
      StartShed fStart s name = (.error (.alreadyRunning name), s, [])) ∧
    (shed.status = StatusStopped →
      StopShed fStop s name = (.error (.alreadyStopped name), s, [])) := by
  constructor
  · intro hr
    simp [StartShed, h, hr]
  · intro hs
    simp [StopShed, h, hs]

/-- C4 witness: on a running shed w, start answers the conflict and changes
nothing; on an exited shed w, stop answers the conflict and changes
nothing. -/
theorem startStop_conflict_witness :
    StartShed false sampleRunning "w" =
      (.error (.alreadyRunning "w"), sampleRunning, []) ∧
    StopShed false sampleStopped "w" =
      (.error (.alreadyStopped "w"), sampleStopped, []) :=
  ⟨(startStop_conflict sampleRunning "w"
      { name := "w", status := "running", created := "t", repo := "",
        containerId := "c1" } false false (by decide)).1 rfl,
   (startStop_conflict sampleStopped "w"
      { name := "w", status := "stopped", created := "t", repo := "",
        containerId := "c1" } false false (by decide)).2 rfl⟩

/-! C10: delete does not verify the ownership label that resolve checks. -/

/-- C10: for a container named shed-name that does not carry the shed
ownership label, resolve answers not-found, yet delete still force-removes
the container and reports success, so delete reaches containers resolve
refuses to see. -/
theorem deleteShed_ignores_label (s : DockerState) (name : String)
    (c : ContainerRecord) (keep : Bool)
    (hc : lookupContainer s (ContainerName name) = some c)
    (hl : (labelGet c.labels LabelShed == "true") = false) :
    GetShed s name = .error (.notFound name) ∧
    (DeleteShed s name keep).1 = .ok () ∧
    lookupContainer (DeleteShed s name keep).2.1 (ContainerName name) = none := by
  have hl' : labelGet c.labels LabelShed ≠ "true" := by simpa using hl
  refine ⟨?_, ?_, ?_⟩
  · simp [GetShed, hc, hl']
  · cases keep <;> simp [DeleteShed]
  · cases keep
    all_goals
      simp [DeleteShed, containerRemove, volumeRemove, lookupContainer]
      intro x _ hm
      simp [matchesRef] at hm
      exact hm.1

/-- C10 witness: an unlabeled container named shed-w is invisible to resolve
but removed by delete. -/
theorem deleteShed_ignores_label_witness :
    GetShed sampleUnlabeled "w" = .error (.notFound "w") ∧
    (DeleteShed sampleUnlabeled "w" false).1 = .ok () ∧
    lookupContainer (DeleteShed sampleUnlabeled "w" false).2.1
      (ContainerName "w") = none :=
  deleteShed_ignores_label sampleUnlabeled "w"
    { name := "shed-w", id := "c1", image := "img", labels := [],
      state := runningContainerState } false (by decide) (by decide)

/-! C2: the status mapping of the two read paths. -/

/-- C2 counterexample: the claimed table maps any unrecognized state to
error, and the list path does answer error for the runtime's removing state,
but resolve on the very same labelled container answers stopped: the resolve
path does not implement the claimed table. -/
theorem statusRead_removing_counterexample :
    mobyStateString removingContainerState = "removing" ∧
    specStatusMap "removing" = StatusError ∧
    ListSheds sampleRemoving =
      [{ name := "w", status := StatusError, created := "t", repo := "",
         containerId := "c9" }] ∧
    GetShed sampleRemoving "w" =
      .ok { name := "w", status := StatusStopped, created := "t", repo := "",
            containerId := "c9" } ∧
    StatusStopped ≠ StatusError := by decide

/-- C2 amended: the list path maps the reported state string exactly per the
claimed table; the resolve path answers error only for a missing state and
otherwise maps by the inspect flags, agreeing with the table precisely when
the container is neither paused nor restarting nor a non-running container
being removed — in particular a removing container resolves to stopped (or
running), never error. -/
theorem statusRead_amended :
    (∀ st : String, containerStateToStatus st = specStatusMap st) ∧
    inspectStateToStatus none = StatusError ∧
    (∀ cs : ContainerState,
      (inspectStateToStatus (some cs) = specStatusMap (mobyStateString cs)) ↔
        (cs.paused = false ∧ cs.restarting = false ∧
          (cs.running = true ∨ cs.removalInProgress = false))) := by
  refine ⟨fun st => rfl, rfl, ?_⟩
  intro cs
  obtain ⟨r, p, rs, d, rm, z⟩ := cs
  revert r p rs d rm z
  decide

/-! C8: the tmux listing parser. -/

/-- One parser iteration keeps exactly the nonempty lines with at least four
colon-separated fields. -/
theorem parseTmuxLine_eq (shedName : String) (rawLine : List Char) :
    parseTmuxLine shedName rawLine =
      if lineAccepted rawLine then some (tmuxSessionOfLine shedName rawLine)
      else none := by
  simp only [parseTmuxLine, lineAccepted, tmuxSessionOfLine]
  by_cases h1 : (goTrimSpace rawLine).isEmpty
  · simp [h1]
  · by_cases h2 : (splitOnChar ':' (goTrimSpace rawLine)).length < 4
    · simp [h1, h2, Nat.not_le.mpr h2]
    · simp [h1, h2, Nat.not_lt.mp h2]

/-- filterMap with a guarded step is filter followed by map. -/
theorem filterMap_guard_eq_map_filter {α β : Type} (p : α → Bool) (g : α → β)
    (f : α → Option β) (hf : ∀ a, f a = if p a then some (g a) else none)
    (l : List α) : l.filterMap f = (l.filter p).map g := by
  induction l with
  | nil => simp
  | cons a t ih =>
    by_cases h : p a <;>
      simp [List.filterMap_cons, List.filter_cons, hf, h, ih]

/-- C8 counterexample: the line a:b:c:d is not a well-formed line of the
format name:createdUnixTimestamp:attachedFlag:windowCount (its timestamp and
window-count fields are not numbers), yet the parser does not skip it: it
returns one session for it, with the unparsable fields defaulted to zero
values. -/
theorem parseTmux_counterexample :
    parseTmuxSessions "a:b:c:d" "proj" =
      [{ name := "a", shedName := "proj", created := none, attached := false,
         windowCount := 0 }] ∧
    (splitOnChar '\n' (goTrimSpace "a:b:c:d".toList)).countP
      (fun l => specWellFormedTmuxLine (goTrimSpace l)) = 0 := by decide

/-- C8 amended: the parser never fails as a whole and returns exactly one
session per line that, after trimming, is nonempty and has at least four
colon-separated fields, in input order, skipping every other line
individually; numeric fields that fail 64-bit decimal parsing default to the
zero timestamp and zero window count rather than invalidating the line; and
the Attached flag of every kept line is true exactly when the line's third
field is the string 1. -/
theorem parseTmux_amended :
    (∀ (output shedName : String),
      parseTmuxSessions output shedName =
        ((splitOnChar '\n' (goTrimSpace output.toList)).filter lineAccepted).map
          (tmuxSessionOfLine shedName)) ∧
    (∀ (shedName : String) (rawLine : List Char), lineAccepted rawLine = true →
      parseTmuxLine shedName rawLine = some (tmuxSessionOfLine shedName rawLine) ∧
      (tmuxSessionOfLine shedName rawLine).attached =
        (tmuxThirdField rawLine == ['1'])) := by
  constructor
  · intro output shedName
    exact filterMap_guard_eq_map_filter lineAccepted (tmuxSessionOfLine shedName)
      (parseTmuxLine shedName) (parseTmuxLine_eq shedName) _
  · intro shedName rawLine h
    exact ⟨by simp [parseTmuxLine_eq, h], rfl⟩

/-- C8 amended witness: the well-formed line sess:1000:1:2 is kept and its
Attached flag is the comparison of the third field with 1. -/
theorem parseTmux_amended_witness :
    parseTmuxLine "proj" "sess:1000:1:2".toList =
      some (tmuxSessionOfLine "proj" "sess:1000:1:2".toList) ∧
    (tmuxSessionOfLine "proj" "sess:1000:1:2".toList).attached =
      (tmuxThirdField "sess:1000:1:2".toList == ['1']) :=
  parseTmux_amended.2 "proj" "sess:1000:1:2".toList (by decide)

/-! C1: rollback on create and start failure. -/

/-- C1: once create has passed validation and created the volume, a failing
container-create step (injected, or forced by the container name being
taken) returns the create-container error with the volume no longer present;
a failing container-start step returns the start error with neither the
container nor the volume present. -/
theorem createShed_rollback (cfg : ServerConfig) (f : CreateFaults)
    (now newId : String) (s : DockerState) (req : CreateShedRequest)
    (hv : ValidateShedName req.name = none)
    (hr : (req.repo != "" && f.repoURLInvalid) = false)
    (hvol : f.volumeCreateFails = false) :
    ((f.containerCreateFails ||
        (lookupContainer s (ContainerName req.name)).isSome) = true →
      (CreateShed cfg f now newId s req).1 = .error .createContainerFailed ∧
      VolumeName req.name ∉ (CreateShed cfg f now newId s req).2.1.volumes) ∧
    (f.containerCreateFails = false →
      lookupContainer s (ContainerName req.name) = none →
      f.containerStartFails = true →
      (CreateShed cfg f now newId s req).1 = .error .startContainerFailed ∧
      VolumeName req.name ∉ (CreateShed cfg f now newId s req).2.1.volumes ∧
      lookupContainer (CreateShed cfg f now newId s req).2.1
        (ContainerName req.name) = none) := by
  have hlk : lookupContainer (volumeCreate s (VolumeName req.name))
      (ContainerName req.name) = lookupContainer s (ContainerName req.name) :=
    lookupContainer_volumeCreate s _ _
  constructor
  · intro hcc
    rw [hlk.symm] at hcc
    simp only [CreateShed, hv, hr, hvol, Bool.false_eq_true, if_false, hcc, if_true,
      volumeRemove]
    exact ⟨trivial, not_mem_filter_bne_self _ _⟩
  · intro h1 h2 h3
    have hcc : (f.containerCreateFails ||
        (lookupContainer (volumeCreate s (VolumeName req.name))
          (ContainerName req.name)).isSome) = false := by
      rw [hlk, h1, h2]
      rfl
    simp only [CreateShed, hv, hr, hvol, Bool.false_eq_true, if_false, hcc, h3, if_true,
      volumeRemove, containerRemove]
    refine ⟨trivial, not_mem_filter_bne_self _ _, ?_⟩
    simp only [lookupContainer, volumeCreate]
    rw [List.find?_eq_none]
    intro x hx
    rw [List.mem_filter] at hx
    have hmem := hx.1
    have hkeep := hx.2
    have hcont : x ∈ s.containers ∨
        x = { name := ContainerName req.name, id := newId,
              image := if req.image == "" then cfg.defaultImage else req.image,
              labels := [(LabelShed, "true"), (LabelShedName, req.name),
                (LabelShedCreated, now)] ++
                (if req.repo != "" then [(LabelShedRepo, req.repo)] else []),
              state := createdContainerState } := by
      revert hmem
      split <;> (intro hmem; simpa using hmem)
    rcases hcont with hs | hctr
    · exact List.find?_eq_none.mp h2 x hs
    · exfalso
      rw [hctr] at hkeep
      simp [matchesRef] at hkeep

/-- C1 witness: on an empty daemon, an injected container-create failure
leaves no volume behind, and an injected container-start failure leaves
neither container nor volume behind. -/
theorem createShed_rollback_witness :
    ((CreateShed sampleConfig
        { sampleNoFaults with containerCreateFails := true } "t" "id0"
        sampleEmpty { name := "w", repo := "", image := "" }).1 =
          .error .createContainerFailed ∧
      VolumeName "w" ∉ (CreateShed sampleConfig
        { sampleNoFaults with containerCreateFails := true } "t" "id0"
        sampleEmpty { name := "w", repo := "", image := "" }).2.1.volumes) ∧
    ((CreateShed sampleConfig
        { sampleNoFaults with containerStartFails := true } "t" "id0"
        sampleEmpty { name := "w", repo := "", image := "" }).1 =
          .error .startContainerFailed ∧
      VolumeName "w" ∉ (CreateShed sampleConfig
        { sampleNoFaults with containerStartFails := true } "t" "id0"
        sampleEmpty { name := "w", repo := "", image := "" }).2.1.volumes ∧
      lookupContainer (CreateShed sampleConfig
        { sampleNoFaults with containerStartFails := true } "t" "id0"
        sampleEmpty { name := "w", repo := "", image := "" }).2.1
        (ContainerName "w") = none) :=
  ⟨(createShed_rollback sampleConfig
      { sampleNoFaults with containerCreateFails := true } "t" "id0"
      sampleEmpty { name := "w", repo := "", image := "" }
      (by decide) (by decide) rfl).1 (by decide),
   (createShed_rollback sampleConfig
      { sampleNoFaults with containerStartFails := true } "t" "id0"
      sampleEmpty { name := "w", repo := "", image := "" }
      (by decide) (by decide) rfl).2 rfl (by decide) rfl⟩

/-! C3: the bridge awaits only the remote-output copy. -/

/-- C3: in every reachable bridge state the exit code has been fetched only
if the output copy has completed (completion of that copy is the sole gate
before the exit code is fetched and returned), and the bridge can run to its
returned terminal result without the stdin copy ever finishing (the stdin
copy is never awaited). -/
theorem bridge_awaits_output_only :
    (∀ s : BridgeState, BridgeReachable s → s.exitFetched = true →
      s.outputDone = true) ∧
    (∃ s : BridgeState, BridgeReachable s ∧ s.returned = true ∧
      s.stdinDone = false) := by
  constructor
  · intro s hs
    induction hs with
    | refl => intro h; exact absurd h (by decide)
    | tail _ hstep ih =>
      cases hstep with
      | stdinFinishes => intro h; exact ih h
      | outputFinishes => intro _; rfl
      | fetchExit ho => intro _; exact ho
      | returnResult hf => intro h; exact ih h
  · refine ⟨⟨false, true, true, true⟩, ?_, rfl, rfl⟩
    exact Relation.ReflTransGen.head (BridgeStep.outputFinishes bridgeInit)
      (Relation.ReflTransGen.head (BridgeStep.fetchExit _ rfl)
        (Relation.ReflTransGen.head (BridgeStep.returnResult _ rfl)
          Relation.ReflTransGen.refl))

/-- C3 witness: the concrete reachable run output-copy-finishes, fetch,
return has the exit code fetched with the output copy completed. -/
theorem bridge_awaits_output_only_witness :
    BridgeState.outputDone ⟨false, true, true, true⟩ = true :=
  bridge_awaits_output_only.1 ⟨false, true, true, true⟩
    (Relation.ReflTransGen.head (BridgeStep.outputFinishes bridgeInit)
      (Relation.ReflTransGen.head (BridgeStep.fetchExit _ rfl)
        (Relation.ReflTransGen.head (BridgeStep.returnResult _ rfl)
          Relation.ReflTransGen.refl)))
    rfl

/-! C6: the resize relay. -/

/-- The producer can push a whole burst through the non-blocking send with
no consumer progress. -/
theorem reach_forward_all (events : List TerminalSize) :
    ∀ queue applied : List TerminalSize,
      Relation.ReflTransGen ResizeStep ⟨events, queue, applied⟩
        ⟨[], pushBurst queue events, applied⟩ := by
  induction events with
  | nil => intro q a; exact Relation.ReflTransGen.refl
  | cons e rest ih =>
    intro q a
    exact Relation.ReflTransGen.head (ResizeStep.forward e rest q a)
      (ih (sendNonBlocking q e) a)

/-- The consumer can drain the whole buffer, applying its events in order. -/
theorem reach_apply_all (queue : List TerminalSize) :
    ∀ pending applied : List TerminalSize,
      Relation.ReflTransGen ResizeStep ⟨pending, queue, applied⟩
        ⟨pending, [], applied ++ queue⟩ := by
  induction queue with
  | nil => intro p a; rw [List.append_nil]
  | cons e rest ih =>
    intro p a
    refine Relation.ReflTransGen.head (ResizeStep.apply p e rest a) ?_
    have h := ih p (a ++ [e])
    rwa [List.append_assoc, List.singleton_append] at h

/-- A burst that fits in the buffer is enqueued whole. -/
theorem pushBurst_fits (events : List TerminalSize) :
    ∀ queue : List TerminalSize,
      queue.length + events.length ≤ resizeChanCap →
      pushBurst queue events = queue ++ events := by
  induction events with
  | nil => intro q _; simp [pushBurst]
  | cons e rest ih =>
    intro q h
    have hlt : q.length < resizeChanCap := by
      simp only [List.length_cons] at h
      omega
    show pushBurst (sendNonBlocking q e) rest = q ++ e :: rest
    rw [sendNonBlocking, if_pos hlt]
    rw [ih (q ++ [e]) (by simp only [List.length_append, List.length_cons,
      List.length_singleton, List.length_nil] at h ⊢; omega)]
    simp

/-- Whether any relay step is possible in a configuration. -/
def resizeStepEnabled (s : ResizeState) : Bool :=
  !s.pending.isEmpty || !s.queue.isEmpty

/-- A relay step exists from a configuration exactly when an event is
pending or buffered. -/
theorem resizeStep_enabled_iff (s : ResizeState) :
    (∃ t, ResizeStep s t) ↔ resizeStepEnabled s = true := by
  obtain ⟨p, q, a⟩ := s
  constructor
  · rintro ⟨t, h⟩
    cases h <;> simp [resizeStepEnabled]
  · intro h
    cases p with
    | cons e rest => exact ⟨_, ResizeStep.forward e rest q a⟩
    | nil =>
      cases q with
      | cons e rest => exact ⟨_, ResizeStep.apply [] e rest a⟩
      | nil => simp [resizeStepEnabled] at h

/-- C6 counterexample: from an idle relay, a burst of eleven rapid resize
events with no consumer progress drops the eleventh and final event (the
buffer holds ten); the run then drains completely and halts in a
configuration with nothing pending and nothing buffered where no further
step is possible, and the final event's dimensions were never applied. -/
theorem resize_drops_final_counterexample :
    Relation.ReflTransGen ResizeStep
      ⟨[⟨81, 24⟩, ⟨82, 24⟩, ⟨83, 24⟩, ⟨84, 24⟩, ⟨85, 24⟩, ⟨86, 24⟩, ⟨87, 24⟩,
        ⟨88, 24⟩, ⟨89, 24⟩, ⟨90, 24⟩, ⟨91, 24⟩], [], []⟩
      ⟨[], [],
       [⟨81, 24⟩, ⟨82, 24⟩, ⟨83, 24⟩, ⟨84, 24⟩, ⟨85, 24⟩, ⟨86, 24⟩, ⟨87, 24⟩,
        ⟨88, 24⟩, ⟨89, 24⟩, ⟨90, 24⟩]⟩ ∧
    resizeStepEnabled
      ⟨[], [],
       [⟨81, 24⟩, ⟨82, 24⟩, ⟨83, 24⟩, ⟨84, 24⟩, ⟨85, 24⟩, ⟨86, 24⟩, ⟨87, 24⟩,
        ⟨88, 24⟩, ⟨89, 24⟩, ⟨90, 24⟩]⟩ = false ∧
    List.contains
      [(⟨81, 24⟩ : TerminalSize), ⟨82, 24⟩, ⟨83, 24⟩, ⟨84, 24⟩, ⟨85, 24⟩,
       ⟨86, 24⟩, ⟨87, 24⟩, ⟨88, 24⟩, ⟨89, 24⟩, ⟨90, 24⟩] ⟨91, 24⟩ = false := by
  refine ⟨?_, by decide, by decide⟩
  have h1 := reach_forward_all
    [⟨81, 24⟩, ⟨82, 24⟩, ⟨83, 24⟩, ⟨84, 24⟩, ⟨85, 24⟩, ⟨86, 24⟩, ⟨87, 24⟩,
     ⟨88, 24⟩, ⟨89, 24⟩, ⟨90, 24⟩, ⟨91, 24⟩] [] []
  have hpb : pushBurst ([] : List TerminalSize)
      [⟨81, 24⟩, ⟨82, 24⟩, ⟨83, 24⟩, ⟨84, 24⟩, ⟨85, 24⟩, ⟨86, 24⟩, ⟨87, 24⟩,
       ⟨88, 24⟩, ⟨89, 24⟩, ⟨90, 24⟩, ⟨91, 24⟩] =
      [⟨81, 24⟩, ⟨82, 24⟩, ⟨83, 24⟩, ⟨84, 24⟩, ⟨85, 24⟩, ⟨86, 24⟩, ⟨87, 24⟩,
       ⟨88, 24⟩, ⟨89, 24⟩, ⟨90, 24⟩] := by decide
  rw [hpb] at h1
  exact h1.trans (reach_apply_all _ [] [])

/-- C6 amended: the forwarding step is enabled whenever an event is pending,
whatever the buffer and the consumer are doing (the producer never blocks),
and every burst that fits in the ten-slot buffer — in particular any burst
of at most ten events reaching an idle relay — is eventually applied in
full, final event included; but, per the counterexample, an event arriving
while the buffer is full is dropped and never applied, and this can be the
final event. -/
theorem resize_relay_amended :
    (∀ (e : TerminalSize) (rest queue applied : List TerminalSize),
      ResizeStep ⟨e :: rest, queue, applied⟩
        ⟨rest, sendNonBlocking queue e, applied⟩) ∧
    (∀ events : List TerminalSize, events.length ≤ resizeChanCap →
      Relation.ReflTransGen ResizeStep ⟨events, [], []⟩ ⟨[], [], events⟩) := by
  constructor
  · exact fun e rest q a => ResizeStep.forward e rest q a
  · intro events h
    have h1 := reach_forward_all events [] []
    rw [pushBurst_fits events [] (by simpa using h)] at h1
    have h2 := reach_apply_all events [] []
    simp only [List.nil_append] at h1 h2
    exact h1.trans h2

/-- C6 amended witness: a three-event burst at an idle relay is applied in
full. -/
theorem resize_relay_amended_witness :
    Relation.ReflTransGen ResizeStep
      ⟨[⟨1, 1⟩, ⟨2, 2⟩, ⟨3, 3⟩], [], []⟩ ⟨[], [], [⟨1, 1⟩, ⟨2, 2⟩, ⟨3, 3⟩]⟩ :=
  resize_relay_amended.2 [⟨1, 1⟩, ⟨2, 2⟩, ⟨3, 3⟩] (by decide)

/-! C7: the readiness poll. -/

/-- A non-terminal iteration before the deadline just advances the poll to
the next tick. -/
theorem waitForReadyAux_step (events : Nat → TickEvent) (tick : Nat)
    (hle : tick ≤ 40) (hnt : TickNonTerminal (events tick)) :
    waitForReadyAux events tick = waitForReadyAux events (tick + 1) := by
  have hguard : ¬ containerReadyPollIntervalMs * tick > containerReadyTimeoutMs := by
    simp only [containerReadyPollIntervalMs, containerReadyTimeoutMs]
    omega
  rcases hnt with h | ⟨st, h, hrun, herr⟩
  · rw [waitForReadyAux, h]
    simp [hguard]
  · rw [waitForReadyAux, h]
    simp [hguard, hrun, herr]

/-- Skipping any stretch of non-terminal iterations that stays within the
deadline leaves the poll's outcome unchanged. -/
theorem waitForReadyAux_congr (events : Nat → TickEvent) (d : Nat) :
    ∀ tick : Nat, tick + d ≤ 41 →
      (∀ j, tick ≤ j → j < tick + d → TickNonTerminal (events j)) →
      waitForReadyAux events tick = waitForReadyAux events (tick + d) := by
  induction d with
  | zero => intro tick _ _; rfl
  | succ n ih =>
    intro tick hb hnt
    rw [waitForReadyAux_step events tick (by omega) (hnt tick le_rfl (by omega))]
    have h := ih (tick + 1) (by omega) (fun j hj1 hj2 => hnt j (by omega) (by omega))
    rwa [show tick + 1 + n = tick + (n + 1) from by omega] at h

/-- C7: the readiness poll is a bounded computation with three classified
outcomes: with the caller still connected, when every in-deadline iteration
is non-terminal (lookup errors are retried, non-running non-error statuses
are waited out), the 41st tick crosses the 10-second deadline (ticks every
250 ms) and answers the distinct timeout error rather than hanging; and as
soon as a first in-deadline iteration reports running the poll answers
success, or terminal failure when it reports the error status. -/
theorem waitForReady_poll (events : Nat → TickEvent) :
    ((∀ j, 1 ≤ j → j ≤ 40 → TickNonTerminal (events j)) →
      ∀ lk, events 41 = .tick lk → waitForReady events = .timeout) ∧
    (∀ k, 1 ≤ k → k ≤ 40 →
      (∀ j, 1 ≤ j → j < k → TickNonTerminal (events j)) →
      ((events k = .tick (.ok StatusRunning) → waitForReady events = .ready) ∧
       (events k = .tick (.ok StatusError) →
          waitForReady events = .errorState))) := by
  have hdeadline : containerReadyPollIntervalMs * 41 > containerReadyTimeoutMs := by
    simp only [containerReadyPollIntervalMs, containerReadyTimeoutMs]
    omega
  constructor
  · intro hnt lk h41
    show waitForReadyAux events 1 = .timeout
    rw [waitForReadyAux_congr events 40 1 (by omega)
      (fun j hj1 hj2 => hnt j hj1 (by omega))]
    rw [waitForReadyAux, h41]
    simp [hdeadline]
  · intro k h1 h40 hpre
    have hguard : ¬ containerReadyPollIntervalMs * k > containerReadyTimeoutMs := by
      simp only [containerReadyPollIntervalMs, containerReadyTimeoutMs]
      omega
    have hskip : waitForReadyAux events 1 = waitForReadyAux events k := by
      have h := waitForReadyAux_congr events (k - 1) 1 (by omega)
        (fun j hj1 hj2 => hpre j hj1 (by omega))
      rwa [show 1 + (k - 1) = k from by omega] at h
    constructor
    · intro hk
      show waitForReadyAux events 1 = .ready
      rw [hskip, waitForReadyAux, hk]
      simp [hguard]
    · intro hk
      show waitForReadyAux events 1 = .errorState
      rw [hskip, waitForReadyAux, hk]
      simp [hguard, StatusError, StatusRunning]

/-- C7 witness: a poll whose lookups fail on the first two ticks and report
running on the third succeeds. -/
theorem waitForReady_poll_witness :
    waitForReady
      (fun j => if j = 3 then TickEvent.tick (.ok StatusRunning)
        else .tick .failed) = .ready := by
  refine ((waitForReady_poll _).2 3 (by omega) (by omega) ?_).1 (by simp)
  intro j hj1 hj2
  left
  simp [show j ≠ 3 from by omega]

end Shed
